import Mathlib

/-!
Shallow embedding of the AG-UI-LangGraph research agent
(`src/my_endpoint/langgraph_research_agent.py` and `src/my_endpoint/main.py`).

Strings are modelled as lists of characters (`Str`), JSON leaf values as
`JValue`, the loosely-typed search-API payload as `RawResponse`, and the
compiled search payload as `SearchResponse`.  The streaming endpoint's
event generator is modelled as a pure function from the query, the
snapshot timestamp and the abstract workflow outcome to the list of
emitted AG-UI events.
-/

/-- Strings of the Python source, modelled as lists of characters. -/
abbrev Str := List Char

/-- Coerce a Lean string literal to the `Str` model. -/
def str (s : String) : Str := s.data

/-- A JSON leaf value appearing in search payloads and patch operations. -/
inductive JValue where
  | s (v : Str)
  | num (v : ℚ)
  | boolean (v : Bool)
  | null
deriving DecidableEq, Repr

/-- A value of the knowledge-graph mapping: text or a list of texts
(spec data model: `knowledgeGraph` maps attribute names to text or list of
text). -/
inductive KGValue where
  | text (v : Str)
  | list (vs : List Str)
deriving DecidableEq, Repr

/-- One organic search result record, with the optional keys the code
reads via `r.get(...)` (`langgraph_research_agent.py` line 84). -/
structure OrganicResult where
  title : Option Str
  snippet : Option Str
  link : Option Str
  url : Option Str
deriving DecidableEq, Repr

/-- One "people also ask" record, with the keys read via `q.get(...)`
(`langgraph_research_agent.py` lines 75-76). -/
structure PaaItem where
  question : Option Str
  snippet : Option Str
deriving DecidableEq, Repr

/-- The parsed JSON payload of the search API, with the fields extracted
by `web_search` (lines 19-22): `results.get("organic", [])`,
`results.get("knowledgeGraph", {})`, `results.get("relatedSearches", [])`,
`results.get("peopleAlsoAsk", [])`.  The knowledge graph is an association
list of key/value pairs, mirroring the Python dict items. -/
structure RawResponse where
  organic : List OrganicResult
  knowledgeGraph : List (Str × KGValue)
  relatedSearches : List Str
  peopleAlsoAsk : List PaaItem
deriving DecidableEq, Repr

/-- The `compiled_results` dict built by `web_search` (lines 32-37): the
optional fields are `None` exactly when the raw list/dict was falsy. -/
structure SearchResponse where
  organic : List OrganicResult
  knowledgeGraph : Option (List (Str × KGValue))
  relatedSearches : Option (List Str)
  peopleAlsoAsk : Option (List PaaItem)
deriving DecidableEq, Repr

/-- `web_search` returns either the compiled results dict or, when no
organic results were found, the fallback message string.  This inductive
models the Python "string or dict" union. -/
inductive SearchOutcome where
  | errorMsg (s : Str)
  | results (r : SearchResponse)
deriving DecidableEq, Repr

/-- The fallback string returned when the search yields no organic
results (`langgraph_research_agent.py` line 27). -/
def no_results_message : Str :=
  str "No relevant research results were found on the topic."

/-- The `compiled_results` dict of `web_search` (lines 32-37):
organic results truncated to 5, related searches and "people also ask"
truncated to 3, falsy values replaced by `None`. -/
def compiled_results (raw : RawResponse) : SearchResponse :=
  { organic := raw.organic.take 5
    knowledgeGraph :=
      if raw.knowledgeGraph = [] then none else some raw.knowledgeGraph
    relatedSearches :=
      if raw.relatedSearches = [] then none
      else some (raw.relatedSearches.take 3)
    peopleAlsoAsk :=
      if raw.peopleAlsoAsk = [] then none
      else some (raw.peopleAlsoAsk.take 3) }

/-- `web_search` (lines 24-39), modelled on the parsed JSON payload: if
there are no organic results return the fallback message, otherwise
return the compiled results. -/
def web_search (raw : RawResponse) : SearchOutcome :=
  if raw.organic = [] then
    .errorMsg no_results_message
  else
    .results (compiled_results raw)

/-- `r.get('title', 'No title')` (line 84). -/
def titleD (r : OrganicResult) : Str := r.title.getD (str "No title")

/-- `r.get('snippet', 'No preview')` (line 84). -/
def snippetD (r : OrganicResult) : Str := r.snippet.getD (str "No preview")

/-- `r.get('link', r.get('url', 'No link'))` (line 84). -/
def linkD (r : OrganicResult) : Str :=
  r.link.getD (r.url.getD (str "No link"))

/-- The per-result format string of line 84:
`f"Title: {..}\nSnippet: {..}\nLink: {..}"`. -/
def formatOrganic (r : OrganicResult) : Str :=
  str "Title: " ++ titleD r ++ str "\nSnippet: " ++ snippetD r ++
    str "\nLink: " ++ linkD r

/-- `organic_text` (lines 83-86): the per-result blocks joined by blank
lines. -/
def organic_text (os : List OrganicResult) : Str :=
  List.intercalate (str "\n\n") (os.map formatOrganic)

/-- The knowledge-graph keys excluded from the report (line 55). -/
def excludedKeys : List Str := [str "type", str "title", str "imageUrl"]

/-- Rendering of a knowledge-graph value inside an item line:
`', '.join(value)` for a list, the text itself otherwise (lines 56-59). -/
def kgValueText : KGValue → Str
  | .text v => v
  | .list vs => List.intercalate (str ", ") vs

/-- One knowledge-graph item line `f"{key}: {value}"` (lines 57, 59). -/
def kgLine (p : Str × KGValue) : Str := p.1 ++ str ": " ++ kgValueText p.2

/-- `kg_items` (lines 53-59): one line per key/value pair whose key is
not excluded. -/
def kgItems (kg : List (Str × KGValue)) : List Str :=
  kg.filterMap fun p =>
    if p.1 ∈ excludedKeys then none else some (kgLine p)

/-- Python `f"{value}"` for the header title: text verbatim, a list in
Python list-repr form. -/
def pyStr : KGValue → Str
  | .text v => v
  | .list vs =>
      str "[" ++
        List.intercalate (str ", ")
          (vs.map fun v => str "\x27" ++ v ++ str "\x27") ++ str "]"

/-- `knowledge_graph.get('title', 'the topic')` rendered into the header
(line 61). -/
def kgAbout (kg : List (Str × KGValue)) : Str :=
  match kg.find? fun p => p.1 == str "title" with
  | some p => pyStr p.2
  | none => str "the topic"

/-- `knowledge_graph_text` (lines 50-61): empty when the knowledge graph
is absent/empty or all its keys are excluded, otherwise a header line
followed by the item lines joined by newlines. -/
def knowledge_graph_text (okg : Option (List (Str × KGValue))) : Str :=
  match okg with
  | none => []
  | some kg =>
      if kg = [] then []
      else if kgItems kg = [] then []
      else
        str "Knowledge Graph about " ++ kgAbout kg ++ str ":\n" ++
          List.intercalate (str "\n") (kgItems kg)

/-- `related_searches_text` (lines 64-67). -/
def related_searches_text (ors : Option (List Str)) : Str :=
  let related_searches := ors.getD []
  if related_searches = [] then []
  else
    str "Related Searches:\n" ++
      List.intercalate (str "\n")
        (related_searches.map fun rs => str "- " ++ rs)

/-- The `paa_items` list (lines 73-78): one `Q:`/`A:` block per entry
with a truthy question. -/
def paaItems (paa : List PaaItem) : List Str :=
  paa.filterMap fun qi =>
    let question := qi.question.getD []
    let answer := qi.snippet.getD (str "No answer available")
    if question = [] then none
    else some (str "Q: " ++ question ++ str "\nA: " ++ answer)

/-- `paa_text` (lines 70-80). -/
def paa_text (opaa : Option (List PaaItem)) : Str :=
  let people_also_ask := opaa.getD []
  if people_also_ask = [] then []
  else if paaItems people_also_ask = [] then []
  else
    str "People Also Ask:\n" ++
      List.intercalate (str "\n\n") (paaItems people_also_ask)

/-- `all_research` (lines 89-94): the four section texts, empty ones
dropped (`filter(None, ...)`), joined by the `===` separator. -/
def all_research (sr : SearchResponse) : Str :=
  List.intercalate (str "\n\n===\n\n")
    (([organic_text sr.organic,
       knowledge_graph_text sr.knowledgeGraph,
       related_searches_text sr.relatedSearches,
       paa_text sr.peopleAlsoAsk]).filter fun s => s ≠ [])

/-- The result of `create_detailed_report`: either a string returned
directly without contacting the completion API (`direct`), or a report
produced by sending the formatted research text to the LLM (`viaLLM`,
carrying the `all_research` prompt payload; the LLM answer itself is
opaque to this system). -/
inductive ReportOutput where
  | direct (s : Str)
  | viaLLM (allResearch : Str)
deriving DecidableEq, Repr

/-- Whether a `ReportOutput` involved a completion-API call. -/
def llmCalled : ReportOutput → Bool
  | .direct _ => false
  | .viaLLM _ => true

/-- `create_detailed_report` (lines 41-136): a string input (the error
sentinel) is returned unchanged; otherwise the four sections are
formatted and the joined text is sent to the completion API. -/
def create_detailed_report : SearchOutcome → ReportOutput
  | .errorMsg s => .direct s
  | .results sr => .viaLLM (all_research sr)

/-- `research_node` (lines 138-143): search, then report. -/
def research_node (raw : RawResponse) : ReportOutput :=
  create_detailed_report (web_search raw)

/-!
## The streaming endpoint (`main.py`)

The asynchronous generator `event_generator` of the `/langgraph-research`
endpoint is modelled as a pure function producing the list of emitted
AG-UI events.  The real network calls (`graph.invoke`) are abstracted by
`Outcome`: the workflow either returns a report (a list whose first item
has a `content` attribute), returns an item without `content`, returns a
non-list/empty result, or raises an exception with some message.  The
pacing `asyncio.sleep` calls and the SSE encoding are irrelevant to the
event sequence and are not modelled.
-/

/-- Python `round(x, 2)`: rounding to two decimal places.  (Python uses
round-half-to-even; no value rounded by this code is a tie, so
round-half-up agrees on every value that occurs.) -/
def round2 (x : ℚ) : ℚ := (round (x * 100) : ℚ) / 100

/-- One JSON-Patch operation of a `StateDeltaEvent` delta
(`{"op": .., "path": .., "value": ..}`). -/
structure PatchOp where
  op : Str
  path : Str
  value : JValue
deriving DecidableEq, Repr

/-- A `"replace"` patch operation, the only kind the endpoint emits. -/
def replaceOp (path : String) (v : JValue) : PatchOp :=
  ⟨str "replace", str path, v⟩

/-- The initial state snapshot of `main.py` lines 162-191, flattened into
one record (one field per leaf of the nested dict).  The timestamp is the
`datetime.now().isoformat()` value, taken as a parameter. -/
structure Snapshot where
  statusPhase : Str
  statusError : Option Str
  statusTimestamp : Str
  researchQuery : Str
  researchStage : Str
  sourcesFound : ℕ
  sources : List Str
  researchCompleted : Bool
  processingProgress : ℚ
  processingReport : Option Str
  processingCompleted : Bool
  processingInProgress : Bool
  uiShowSources : Bool
  uiShowProgress : Bool
  uiActiveTab : Str
deriving DecidableEq, Repr

/-- The snapshot contents of `main.py` lines 165-189. -/
def initialSnapshot (query ts : Str) : Snapshot :=
  { statusPhase := str "initialized"
    statusError := none
    statusTimestamp := ts
    researchQuery := query
    researchStage := str "not_started"
    sourcesFound := 0
    sources := []
    researchCompleted := false
    processingProgress := 0
    processingReport := none
    processingCompleted := false
    processingInProgress := false
    uiShowSources := false
    uiShowProgress := true
    uiActiveTab := str "chat" }

/-- The AG-UI events emitted by the endpoint. -/
inductive Event where
  | runStarted
  | stateSnapshot (s : Snapshot)
  | stateDelta (delta : List PatchOp)
  | textMessageStart
  | textMessageContent (delta : Str)
  | textMessageEnd
  | runFinished
deriving DecidableEq, Repr

/-- The abstract outcome of running the LangGraph workflow
(`graph.invoke` at `main.py` lines 361-378): a report whose content was
extracted, a first item without a `content` attribute (line 455), a
non-list or empty result (line 500), or a raised exception (line 546). -/
inductive Outcome where
  | success (report : Str)
  | invalidShape
  | emptyResult
  | exception (msg : Str)
deriving DecidableEq, Repr

/-- The information-gathering delta (`main.py` lines 200-226). -/
def gatheringDelta : List PatchOp :=
  [replaceOp "/status/phase" (.s (str "gathering_information")),
   replaceOp "/research/stage" (.s (str "searching")),
   replaceOp "/processing/inProgress" (.boolean true),
   replaceOp "/processing/progress" (.num 0.15)]

/-- The progress value of iteration `i` of the search loop
(`main.py` line 232): `progress = 0.15 + ((i + 1) / 20)`, rounded to two
decimals when emitted (line 241). -/
def searchProgress (i : ℕ) : ℚ := round2 (0.15 + ((i : ℚ) + 1) / 20)

/-- The two simulated search-progress deltas (`main.py` lines 231-245). -/
def searchLoopEvents : List Event :=
  (List.range 2).map fun i =>
    .stateDelta
      [replaceOp "/processing/progress" (.num (searchProgress i))]

/-- The analysis-phase delta (`main.py` lines 251-275). -/
def analysisDelta : List PatchOp :=
  [replaceOp "/status/phase" (.s (str "analyzing_information")),
   replaceOp "/research/stage" (.s (str "organizing_data")),
   replaceOp "/processing/progress" (.num 0.3)]

/-- The progress value of iteration `i` of the analysis loop
(`main.py` line 279): `progress = 0.3 + ((i + 1) / 20)`, rounded to two
decimals when emitted (line 288). -/
def analysisProgress (i : ℕ) : ℚ := round2 (0.3 + ((i : ℚ) + 1) / 20)

/-- The two simulated analysis-progress deltas (`main.py` lines 278-292). -/
def analysisLoopEvents : List Event :=
  (List.range 2).map fun i =>
    .stateDelta
      [replaceOp "/processing/progress" (.num (analysisProgress i))]

/-- The report-generation-phase delta (`main.py` lines 295-319). -/
def generatingDelta : List PatchOp :=
  [replaceOp "/status/phase" (.s (str "generating_report")),
   replaceOp "/research/stage" (.s (str "creating_detailed_report")),
   replaceOp "/processing/progress" (.num 0.4)]

/-- The seven report sub-stage names (`main.py` lines 323-327). -/
def report_stages : List Str :=
  [str "outlining_report", str "drafting_executive_summary",
   str "writing_introduction", str "compiling_key_findings",
   str "developing_analysis", str "forming_conclusions",
   str "finalizing_report"]

/-- `start_progress = 0.4` (`main.py` line 330). -/
def start_progress : ℚ := 0.4

/-- `end_progress = 0.9` (`main.py` line 331). -/
def end_progress : ℚ := 0.9

/-- `interval = (end_progress - start_progress) / len(report_stages)`
(`main.py` line 332). -/
def interval : ℚ := (end_progress - start_progress) / (report_stages.length : ℚ)

/-- The progress value emitted with the `i`-th report sub-stage
(`main.py` line 336): `progress = start_progress + (interval * i)`,
rounded to two decimals when emitted (line 352). -/
def stageProgress (i : ℕ) : ℚ := round2 (start_progress + interval * (i : ℚ))

/-- The seven report sub-stage deltas (`main.py` lines 335-356). -/
def reportStageDeltas : List Event :=
  report_stages.enum.map fun p =>
    .stateDelta
      [replaceOp "/research/stage" (.s p.2),
       replaceOp "/processing/progress" (.num (stageProgress p.1))]

/-- The success-path terminal delta (`main.py` lines 389-430). -/
def successDelta (report : Str) : List PatchOp :=
  [replaceOp "/status/phase" (.s (str "completed")),
   replaceOp "/research/stage" (.s (str "report_complete")),
   replaceOp "/research/completed" (.boolean true),
   replaceOp "/processing/completed" (.boolean true),
   replaceOp "/processing/inProgress" (.boolean false),
   replaceOp "/processing/progress" (.num 1.0),
   replaceOp "/processing/report" (.s report)]

/-- The terminal error delta, shared in shape by the invalid-shape path
(`main.py` lines 458-499), the empty-result path (lines 504-545) and the
exception path (lines 550-591); only the error message differs. -/
def errorDelta (emsg : Str) : List PatchOp :=
  [replaceOp "/status/phase" (.s (str "completed")),
   replaceOp "/status/error" (.s emsg),
   replaceOp "/research/stage" (.s (str "error")),
   replaceOp "/research/completed" (.boolean false),
   replaceOp "/processing/completed" (.boolean true),
   replaceOp "/processing/inProgress" (.boolean false),
   replaceOp "/processing/progress" (.num 0)]

/-- The events emitted after the workflow finishes, by outcome
(`main.py` lines 378-591). -/
def outcomeEvents : Outcome → List Event
  | .success report =>
      [.stateDelta (successDelta report),
       .textMessageStart,
       .textMessageContent report,
       .textMessageEnd]
  | .invalidShape =>
      [.stateDelta (errorDelta (str "Research results format is invalid."))]
  | .emptyResult =>
      [.stateDelta (errorDelta (str "No research results were generated."))]
  | .exception msg =>
      [.stateDelta (errorDelta (str "Research process failed: " ++ msg))]

/-- The scripted events emitted before the report sub-stage loop
(`main.py` lines 147-319). -/
def preStageEvents (query ts : Str) : List Event :=
  [.runStarted,
   .stateSnapshot (initialSnapshot query ts),
   .stateDelta gatheringDelta] ++
  searchLoopEvents ++
  [.stateDelta analysisDelta] ++
  analysisLoopEvents ++
  [.stateDelta generatingDelta]

/-- The scripted event stream emitted before the workflow result is
known (`main.py` lines 147-356). -/
def scriptedEvents (query ts : Str) : List Event :=
  preStageEvents query ts ++ reportStageDeltas

/-- The full event stream of one run of the endpoint's `event_generator`
(`main.py` lines 120-600): the scripted events, the outcome-dependent
events, and the final `RunFinishedEvent`. -/
def event_generator (query ts : Str) (o : Outcome) : List Event :=
  scriptedEvents query ts ++ outcomeEvents o ++ [.runFinished]

/-- The `/processing/progress` values an event carries: the snapshot's
progress field, or the values of the progress-path replace operations of
a state delta. -/
def progressOfEvent : Event → List ℚ
  | .stateSnapshot s => [s.processingProgress]
  | .stateDelta d =>
      d.filterMap fun op =>
        if op.path = str "/processing/progress" then
          match op.value with
          | .num q => some q
          | _ => none
        else none
  | _ => []

/-- All `/processing/progress` values emitted across a list of events,
in emission order. -/
def progressValues (events : List Event) : List ℚ :=
  events.flatMap progressOfEvent

/-- Recogniser for the run-finished event. -/
def isRunFinished : Event → Bool
  | .runFinished => true
  | _ => false

/-- Recogniser for the three text-message event kinds. -/
def isTextMessage : Event → Bool
  | .textMessageStart => true
  | .textMessageContent _ => true
  | .textMessageEnd => true
  | _ => false

/-- Recogniser for state-delta events. -/
def isStateDelta : Event → Bool
  | .stateDelta _ => true
  | _ => false

/-- The `/processing/progress` values of the scripted events, in
emission order (snapshot, gathering phase, two search iterations,
analysis phase, two analysis iterations, report-generation phase, seven
report sub-stages). -/
def scriptedProgress : List ℚ :=
  [0, 0.15, searchProgress 0, searchProgress 1, 0.3,
   analysisProgress 0, analysisProgress 1, 0.4,
   stageProgress 0, stageProgress 1, stageProgress 2, stageProgress 3,
   stageProgress 4, stageProgress 5, stageProgress 6]

/-- The `/processing/progress` values of the outcome-dependent events:
`1.0` on success, `0` in each terminal error delta. -/
def outcomeProgress : Outcome → List ℚ
  | .success _ => [1.0]
  | _ => [0]

/-- `InOrder bs s` holds when the blocks `bs` all occur inside `s`, in
the given order and without overlapping. -/
inductive InOrder : List Str → Str → Prop where
  | nil (s : Str) : InOrder [] s
  | cons (b : Str) (bs : List Str) (pre suf : Str) :
      InOrder bs suf → InOrder (b :: bs) (pre ++ (b ++ suf))

/-- A sample raw search payload with no organic results. -/
def sampleEmptyRaw : RawResponse :=
  { organic := []
    knowledgeGraph := [(str "description", .text (str "d"))]
    relatedSearches := [str "related"]
    peopleAlsoAsk := [⟨some (str "why"), some (str "because")⟩] }

/-- A sample raw search payload with two organic results. -/
def sampleRaw : RawResponse :=
  { organic :=
      [⟨some (str "T1"), some (str "S1"), some (str "L1"), none⟩,
       ⟨some (str "T2"), some (str "S2"), none, some (str "U2")⟩]
    knowledgeGraph := []
    relatedSearches := []
    peopleAlsoAsk := [] }

/-- A sample raw search payload exceeding every truncation limit:
six organic results, four related searches, four "people also ask"
entries. -/
def sampleLongRaw : RawResponse :=
  { organic :=
      [⟨some (str "T1"), none, none, none⟩, ⟨some (str "T2"), none, none, none⟩,
       ⟨some (str "T3"), none, none, none⟩, ⟨some (str "T4"), none, none, none⟩,
       ⟨some (str "T5"), none, none, none⟩, ⟨some (str "T6"), none, none, none⟩]
    knowledgeGraph := []
    relatedSearches := [str "r1", str "r2", str "r3", str "r4"]
    peopleAlsoAsk :=
      [⟨some (str "q1"), some (str "a1")⟩, ⟨some (str "q2"), some (str "a2")⟩,
       ⟨some (str "q3"), some (str "a3")⟩, ⟨some (str "q4"), some (str "a4")⟩] }

/-- A sample knowledge graph with excluded and included keys, one of the
included values a list. -/
def sampleKG : List (Str × KGValue) :=
  [(str "type", .text (str "Thing")),
   (str "title", .text (str "Rust")),
   (str "imageUrl", .text (str "http://img")),
   (str "description", .text (str "A systems language")),
   (str "paradigms", .list [str "functional", str "imperative"])]

/-- A sample compiled search response carrying `sampleKG`. -/
def sampleKGResponse : SearchResponse :=
  { organic := [⟨some (str "T1"), none, none, none⟩]
    knowledgeGraph := some sampleKG
    relatedSearches := none
    peopleAlsoAsk := none }

/-!
## Theorems

First some bookkeeping lemmas about the emitted progress values, then
one theorem per specification claim.
-/

/-- The progress values of a full run are the scripted values followed
by the outcome-dependent terminal value. -/
lemma progressValues_event_generator (q ts : Str) (o : Outcome) :
    progressValues (event_generator q ts o) =
      scriptedProgress ++ outcomeProgress o := by
  cases o <;> rfl

/-- Numeric evaluation of the scripted progress values. -/
lemma scriptedProgress_eq :
    scriptedProgress =
      [0, 3/20, 1/5, 1/4, 3/10, 7/20, 2/5, 2/5, 2/5, 47/100, 27/50,
       61/100, 69/100, 19/25, 83/100] := by
  norm_num [scriptedProgress, searchProgress, analysisProgress, stageProgress,
    round2, round_eq, start_progress, end_progress, interval, report_stages]

/-- C1 is false as stated: on the exception path the terminal error
delta resets `/processing/progress` to `0` after the report sub-stages
reached `0.83`, so the emitted progress sequence of that run is not
non-decreasing. -/
theorem progress_monotone_counterexample :
    ¬ (List.Chain' (· ≤ ·)
          (progressValues (event_generator (str "q") (str "ts")
            (.exception (str "boom")))) ∧
        ∀ p ∈ progressValues (event_generator (str "q") (str "ts")
            (.exception (str "boom"))), 0 ≤ p ∧ p ≤ 1) := by
  intro h
  have hc := h.1
  rw [progressValues_event_generator, scriptedProgress_eq] at hc
  norm_num [outcomeProgress, List.chain'_cons] at hc

/-- C1 (amended): every emitted `/processing/progress` value lies in
`[0,1]`; on the success path the emitted sequence is non-decreasing; on
each of the three error paths the sequence is non-decreasing up to the
terminal error delta, which resets progress to `0`. -/
theorem progress_bounded_and_monotone_until_error_reset
    (q ts r msg : Str) :
    (∀ o : Outcome,
      ∀ p ∈ progressValues (event_generator q ts o), 0 ≤ p ∧ p ≤ 1) ∧
    List.Chain' (· ≤ ·) (progressValues (event_generator q ts (.success r))) ∧
    (List.Chain' (· ≤ ·)
        ((progressValues (event_generator q ts .invalidShape)).dropLast) ∧
      (progressValues (event_generator q ts .invalidShape)).getLast? = some 0) ∧
    (List.Chain' (· ≤ ·)
        ((progressValues (event_generator q ts .emptyResult)).dropLast) ∧
      (progressValues (event_generator q ts .emptyResult)).getLast? = some 0) ∧
    (List.Chain' (· ≤ ·)
        ((progressValues (event_generator q ts (.exception msg))).dropLast) ∧
      (progressValues (event_generator q ts (.exception msg))).getLast? =
        some 0) := by
  refine ⟨?_, ?_, ⟨?_, rfl⟩, ⟨?_, rfl⟩, ⟨?_, rfl⟩⟩
  · intro o
    cases o <;>
      · rw [progressValues_event_generator, scriptedProgress_eq]
        norm_num [outcomeProgress]
  all_goals
    rw [progressValues_event_generator, scriptedProgress_eq]
    norm_num [outcomeProgress, List.dropLast, List.chain'_cons]

/-- Witness for C1 (amended): the bound holds at the concretely emitted
value `83/100` of an exception run. -/
theorem progress_bounded_witness :
    (83/100 : ℚ) ∈ progressValues (event_generator (str "q") (str "ts")
        (.exception (str "boom"))) ∧
      (0 ≤ (83/100 : ℚ) ∧ (83/100 : ℚ) ≤ 1) := by
  constructor
  · rw [progressValues_event_generator, scriptedProgress_eq]
    norm_num [outcomeProgress]
  · exact (progress_bounded_and_monotone_until_error_reset
        (str "q") (str "ts") (str "r") (str "boom")).1
      (.exception (str "boom")) (83/100 : ℚ)
      (by rw [progressValues_event_generator, scriptedProgress_eq]
          norm_num [outcomeProgress])

/-- C2: every run, whatever the workflow outcome, emits exactly one
run-finished event, and it is the last event of the stream. -/
theorem run_finished_exactly_once (q ts : Str) (o : Outcome) :
    (event_generator q ts o).countP isRunFinished = 1 ∧
    (event_generator q ts o).getLast? = some Event.runFinished := by
  cases o <;> exact ⟨rfl, rfl⟩

/-- C3: on the exception path the endpoint emits a state-delta setting
`/status/phase` to `"completed"`, `/status/error` to a message containing
the failure reason, and `/research/completed` to `false`, immediately
followed by the run-finished event, and the run contains no text-message
events. -/
theorem exception_emits_error_state_then_finishes (q ts msg : Str) :
    event_generator q ts (.exception msg) =
      scriptedEvents q ts ++
        [Event.stateDelta (errorDelta (str "Research process failed: " ++ msg)),
         Event.runFinished] ∧
    replaceOp "/status/phase" (.s (str "completed")) ∈
      errorDelta (str "Research process failed: " ++ msg) ∧
    replaceOp "/status/error" (.s (str "Research process failed: " ++ msg)) ∈
      errorDelta (str "Research process failed: " ++ msg) ∧
    msg <:+: (str "Research process failed: " ++ msg) ∧
    replaceOp "/research/completed" (.boolean false) ∈
      errorDelta (str "Research process failed: " ++ msg) ∧
    (event_generator q ts (.exception msg)).countP isTextMessage = 0 := by
  refine ⟨by simp [event_generator, outcomeEvents], ?_, ?_,
    ⟨str "Research process failed: ", [], by simp⟩, ?_, rfl⟩
  · simp [errorDelta]
  · simp [errorDelta]
  · simp [errorDelta]

/-- C9: the seven report sub-stage deltas are part of every run, and
their emitted progress values are the linear interpolation from the
start fraction `0.4` towards the end fraction `0.9` in sevenths (rounded
to two decimals on emission, as the code does). -/
theorem report_stage_progress_interpolates_linearly :
    (∀ q ts : Str, ∀ o : Outcome,
      reportStageDeltas <:+: event_generator q ts o) ∧
    progressValues reportStageDeltas =
      (List.range 7).map (fun i =>
        round2 (start_progress +
          ((end_progress - start_progress) / 7) * (i : ℚ))) ∧
    progressValues reportStageDeltas =
      [2/5, 47/100, 27/50, 61/100, 69/100, 19/25, 83/100] := by
  have h : progressValues reportStageDeltas =
      [stageProgress 0, stageProgress 1, stageProgress 2, stageProgress 3,
       stageProgress 4, stageProgress 5, stageProgress 6] := rfl
  refine ⟨fun q ts o =>
    ⟨preStageEvents q ts, outcomeEvents o ++ [Event.runFinished],
      by simp [event_generator, scriptedEvents]⟩, ?_, ?_⟩
  · rw [h]
    norm_num [stageProgress, interval, report_stages, start_progress,
      end_progress, List.range_succ, round2, round_eq]
  · rw [h]
    norm_num [stageProgress, interval, report_stages, start_progress,
      end_progress, round2, round_eq]

/-- C10: on each of the four outcome paths, the terminal state-delta
sets `/processing/inProgress` to `false` and `/processing/completed` to
`true`, and no further state-delta follows it. -/
theorem terminal_delta_completes_processing (q ts : Str) (o : Outcome) :
    ∃ d, event_generator q ts o =
        scriptedEvents q ts ++
          (Event.stateDelta d :: (outcomeEvents o).tail) ++
          [Event.runFinished] ∧
      replaceOp "/processing/inProgress" (.boolean false) ∈ d ∧
      replaceOp "/processing/completed" (.boolean true) ∈ d ∧
      (outcomeEvents o).tail.countP isStateDelta = 0 := by
  cases o with
  | success r =>
      exact ⟨successDelta r, by simp [event_generator, outcomeEvents],
        by simp [successDelta], by simp [successDelta], rfl⟩
  | invalidShape =>
      exact ⟨errorDelta (str "Research results format is invalid."),
        by simp [event_generator, outcomeEvents],
        by simp [errorDelta], by simp [errorDelta], rfl⟩
  | emptyResult =>
      exact ⟨errorDelta (str "No research results were generated."),
        by simp [event_generator, outcomeEvents],
        by simp [errorDelta], by simp [errorDelta], rfl⟩
  | exception msg =>
      exact ⟨errorDelta (str "Research process failed: " ++ msg),
        by simp [event_generator, outcomeEvents],
        by simp [errorDelta], by simp [errorDelta], rfl⟩

/-!
### String-list infrastructure for the formatter claims
-/

/-- Joining a single block is the block itself. -/
lemma intercalate_single (sep a : Str) : List.intercalate sep [a] = a := by
  simp [List.intercalate]

/-- Unfolding of `intercalate` on two or more blocks. -/
lemma intercalate_cons_cons (sep a b : Str) (l : List Str) :
    List.intercalate sep (a :: b :: l) =
      a ++ (sep ++ List.intercalate sep (b :: l)) := rfl

/-- A nonempty join starts with its first block. -/
lemma intercalate_head (sep a : Str) (l : List Str) :
    ∃ rest, List.intercalate sep (a :: l) = a ++ rest := by
  cases l with
  | nil => exact ⟨[], by simp [intercalate_single]⟩
  | cons b bs =>
      exact ⟨sep ++ List.intercalate sep (b :: bs),
        intercalate_cons_cons sep a b bs⟩

/-- `InOrder` is preserved by extending the text on the left. -/
lemma InOrder.append_left (t : Str) {bs : List Str} {s : Str}
    (h : InOrder bs s) : InOrder bs (t ++ s) := by
  induction h with
  | nil s => exact .nil _
  | cons b bs pre suf hrec ih =>
      have := InOrder.cons b bs (t ++ pre) suf hrec
      simpa [List.append_assoc] using this

/-- `InOrder` is preserved by extending the text on the right. -/
lemma InOrder.append_right (t : Str) {bs : List Str} {s : Str}
    (h : InOrder bs s) : InOrder bs (s ++ t) := by
  induction h with
  | nil s => exact .nil _
  | cons b bs pre suf hrec ih =>
      have := InOrder.cons b bs pre (suf ++ t) ih
      simpa [List.append_assoc] using this

/-- The blocks of a join occur in it, in order. -/
lemma inOrder_intercalate (sep : Str) :
    ∀ l : List Str, InOrder l (List.intercalate sep l)
  | [] => .nil _
  | [a] => by
      rw [intercalate_single]
      have := InOrder.cons a [] [] [] (.nil [])
      simpa using this
  | a :: b :: l => by
      rw [intercalate_cons_cons]
      have ih := inOrder_intercalate sep (b :: l)
      have := InOrder.cons a (b :: l) []
        (sep ++ List.intercalate sep (b :: l)) (ih.append_left sep)
      simpa using this

/-- Each block covered by an `InOrder` witness is an infix of the text. -/
lemma InOrder.infix_of_mem {bs : List Str} {s a : Str}
    (h : InOrder bs s) (ha : a ∈ bs) : a <:+: s := by
  induction h with
  | nil s => exact absurd ha (List.not_mem_nil a)
  | cons b bs pre suf hrec ih =>
      rcases List.mem_cons.mp ha with rfl | hmem
      · exact ⟨pre, suf, by simp [List.append_assoc]⟩
      · exact (ih hmem).trans ⟨pre ++ b, [], by simp [List.append_assoc]⟩

/-- A member block is an infix of the join. -/
lemma mem_intercalate_occurs {l : List Str} {a : Str} (sep : Str)
    (ha : a ∈ l) : a <:+: List.intercalate sep l :=
  (inOrder_intercalate sep l).infix_of_mem ha

/-- A formatted organic block is never empty (it starts with a literal
`Title:` label). -/
lemma formatOrganic_ne_nil (r : OrganicResult) : formatOrganic r ≠ [] := by
  have h : str "Title: " ≠ [] := by decide
  simp [formatOrganic, List.append_eq_nil, h]

/-- The organic section is nonempty whenever there are organic results. -/
lemma organic_text_ne_nil {os : List OrganicResult} (h : os ≠ []) :
    organic_text os ≠ [] := by
  cases os with
  | nil => exact absurd rfl h
  | cons r rest =>
      cases rest with
      | nil =>
          rw [organic_text, List.map_cons, List.map_nil, intercalate_single]
          exact formatOrganic_ne_nil r
      | cons r2 rest2 =>
          rw [organic_text, List.map_cons, List.map_cons, intercalate_cons_cons]
          simp [List.append_eq_nil, formatOrganic_ne_nil r]

/-- When there are organic results, the research text starts with the
organic section. -/
lemma all_research_head (sr : SearchResponse) (h : sr.organic ≠ []) :
    ∃ rest, all_research sr = organic_text sr.organic ++ rest := by
  rw [all_research, List.filter_cons]
  rw [if_pos (by simpa using organic_text_ne_nil h)]
  exact intercalate_head _ _ _

/-- C4: given the error sentinel (any string input), the report
formatter returns it unchanged and issues no completion-API call. -/
theorem error_sentinel_passthrough (s : Str) :
    create_detailed_report (.errorMsg s) = .direct s ∧
    llmCalled (create_detailed_report (.errorMsg s)) = false :=
  ⟨rfl, rfl⟩

/-- C5: a search payload with zero organic results makes `web_search`
return the literal fallback string, which the formatter passes through
unchanged, so the completion API is never called. -/
theorem no_organic_results_fallback (raw : RawResponse)
    (h : raw.organic = []) :
    web_search raw = .errorMsg no_results_message ∧
    no_results_message =
      str "No relevant research results were found on the topic." ∧
    create_detailed_report (web_search raw) = .direct no_results_message ∧
    llmCalled (create_detailed_report (web_search raw)) = false := by
  have hw : web_search raw = .errorMsg no_results_message := by
    simp [web_search, h]
  exact ⟨hw, rfl, by rw [hw]; rfl, by rw [hw]; rfl⟩

/-- Witness for C5 at a concrete raw payload without organic results. -/
theorem no_organic_results_fallback_witness :
    sampleEmptyRaw.organic = [] ∧
    (web_search sampleEmptyRaw = .errorMsg no_results_message ∧
      no_results_message =
        str "No relevant research results were found on the topic." ∧
      create_detailed_report (web_search sampleEmptyRaw) =
        .direct no_results_message ∧
      llmCalled (create_detailed_report (web_search sampleEmptyRaw)) =
        false) :=
  ⟨rfl, no_organic_results_fallback sampleEmptyRaw rfl⟩

/-- C6: for a raw payload with at least one organic result, the compiled
response keeps the first at-most-5 organic results in order, and the
formatted research text produced by `create_detailed_report` contains
every included result's formatted block in the original order, so it
contains each result's title, snippet and link (or url, when no link is
present). -/
theorem organic_results_formatted_in_order (raw : RawResponse)
    (h : raw.organic ≠ []) :
    ∃ sr, web_search raw = .results sr ∧
      sr.organic = raw.organic.take 5 ∧
      sr.organic.length ≤ 5 ∧
      sr.organic <+: raw.organic ∧
      create_detailed_report (.results sr) = .viaLLM (all_research sr) ∧
      InOrder (sr.organic.map formatOrganic) (all_research sr) ∧
      ∀ r ∈ sr.organic,
        (∀ t, r.title = some t → t <:+: all_research sr) ∧
        (∀ s, r.snippet = some s → s <:+: all_research sr) ∧
        (∀ l, r.link = some l → l <:+: all_research sr) ∧
        (r.link = none → ∀ u, r.url = some u → u <:+: all_research sr) := by
  have horg : (compiled_results raw).organic ≠ [] := by
    show raw.organic.take 5 ≠ []
    cases ho : raw.organic with
    | nil => exact absurd ho h
    | cons a l => simp [List.take]
  obtain ⟨rest, hrest⟩ := all_research_head (compiled_results raw) horg
  have hIO : InOrder ((compiled_results raw).organic.map formatOrganic)
      (all_research (compiled_results raw)) := by
    rw [hrest]
    exact (inOrder_intercalate (str "\n\n") _).append_right rest
  refine ⟨compiled_results raw, by simp [web_search, h], rfl,
    List.length_take_le 5 raw.organic,
    ⟨raw.organic.drop 5, List.take_append_drop 5 raw.organic⟩, rfl, hIO, ?_⟩
  intro r hr
  have hblock : formatOrganic r <:+: all_research (compiled_results raw) :=
    hIO.infix_of_mem (List.mem_map_of_mem formatOrganic hr)
  refine ⟨?_, ?_, ?_, ?_⟩
  · intro t ht
    have hin : t <:+: formatOrganic r :=
      ⟨str "Title: ",
       str "\nSnippet: " ++ snippetD r ++ str "\nLink: " ++ linkD r,
       by simp [formatOrganic, titleD, ht, List.append_assoc]⟩
    exact hin.trans hblock
  · intro s hs
    have hin : s <:+: formatOrganic r :=
      ⟨str "Title: " ++ titleD r ++ str "\nSnippet: ",
       str "\nLink: " ++ linkD r,
       by simp [formatOrganic, snippetD, hs, List.append_assoc]⟩
    exact hin.trans hblock
  · intro l hl
    have hin : l <:+: formatOrganic r :=
      ⟨str "Title: " ++ titleD r ++ str "\nSnippet: " ++ snippetD r ++
         str "\nLink: ", [],
       by simp [formatOrganic, linkD, hl, List.append_assoc]⟩
    exact hin.trans hblock
  · intro hnone u hu
    have hin : u <:+: formatOrganic r :=
      ⟨str "Title: " ++ titleD r ++ str "\nSnippet: " ++ snippetD r ++
         str "\nLink: ", [],
       by simp [formatOrganic, linkD, hnone, hu, List.append_assoc]⟩
    exact hin.trans hblock

/-- Witness for C6 at a concrete two-result payload. -/
theorem organic_results_formatted_in_order_witness :
    sampleRaw.organic ≠ [] ∧
    (∃ sr, web_search sampleRaw = .results sr ∧
      sr.organic = sampleRaw.organic.take 5 ∧
      sr.organic.length ≤ 5 ∧
      sr.organic <+: sampleRaw.organic ∧
      create_detailed_report (.results sr) = .viaLLM (all_research sr) ∧
      InOrder (sr.organic.map formatOrganic) (all_research sr) ∧
      ∀ r ∈ sr.organic,
        (∀ t, r.title = some t → t <:+: all_research sr) ∧
        (∀ s, r.snippet = some s → s <:+: all_research sr) ∧
        (∀ l, r.link = some l → l <:+: all_research sr) ∧
        (r.link = none → ∀ u, r.url = some u → u <:+: all_research sr)) :=
  ⟨by simp [sampleRaw],
   organic_results_formatted_in_order sampleRaw (by simp [sampleRaw])⟩

/-- C7: for a raw payload with at least one organic result, the compiled
response has at most 5 organic results, at most 3 related searches and at
most 3 "people also ask" entries, each a prefix of the corresponding raw
list. -/
theorem search_truncation_limits (raw : RawResponse)
    (h : raw.organic ≠ []) :
    ∃ sr, web_search raw = .results sr ∧
      sr.organic.length ≤ 5 ∧
      sr.organic <+: raw.organic ∧
      (sr.relatedSearches.getD []).length ≤ 3 ∧
      sr.relatedSearches.getD [] <+: raw.relatedSearches ∧
      (sr.peopleAlsoAsk.getD []).length ≤ 3 ∧
      sr.peopleAlsoAsk.getD [] <+: raw.peopleAlsoAsk := by
  refine ⟨compiled_results raw, by simp [web_search, h],
    List.length_take_le 5 raw.organic,
    ⟨raw.organic.drop 5, List.take_append_drop 5 raw.organic⟩,
    ?_, ?_, ?_, ?_⟩
  · by_cases hrs : raw.relatedSearches = []
    · simp [compiled_results, hrs]
    · simp only [compiled_results, if_neg hrs, Option.getD_some]
      exact List.length_take_le 3 raw.relatedSearches
  · by_cases hrs : raw.relatedSearches = []
    · simp only [compiled_results, if_pos hrs, Option.getD_none]
      exact ⟨raw.relatedSearches, rfl⟩
    · simp only [compiled_results, if_neg hrs, Option.getD_some]
      exact ⟨raw.relatedSearches.drop 3,
        List.take_append_drop 3 raw.relatedSearches⟩
  · by_cases hpa : raw.peopleAlsoAsk = []
    · simp [compiled_results, hpa]
    · simp only [compiled_results, if_neg hpa, Option.getD_some]
      exact List.length_take_le 3 raw.peopleAlsoAsk
  · by_cases hpa : raw.peopleAlsoAsk = []
    · simp only [compiled_results, if_pos hpa, Option.getD_none]
      exact ⟨raw.peopleAlsoAsk, rfl⟩
    · simp only [compiled_results, if_neg hpa, Option.getD_some]
      exact ⟨raw.peopleAlsoAsk.drop 3,
        List.take_append_drop 3 raw.peopleAlsoAsk⟩

/-- Witness for C7 at a payload exceeding every truncation limit. -/
theorem search_truncation_limits_witness :
    sampleLongRaw.organic ≠ [] ∧
    (∃ sr, web_search sampleLongRaw = .results sr ∧
      sr.organic.length ≤ 5 ∧
      sr.organic <+: sampleLongRaw.organic ∧
      (sr.relatedSearches.getD []).length ≤ 3 ∧
      sr.relatedSearches.getD [] <+: sampleLongRaw.relatedSearches ∧
      (sr.peopleAlsoAsk.getD []).length ≤ 3 ∧
      sr.peopleAlsoAsk.getD [] <+: sampleLongRaw.peopleAlsoAsk) :=
  ⟨by simp [sampleLongRaw],
   search_truncation_limits sampleLongRaw (by simp [sampleLongRaw])⟩

/-- C8: every knowledge-graph item line comes from a non-excluded key;
every non-excluded key contributes its `key: value` line, which appears
in the knowledge-graph section of the formatted output; the keys `type`,
`title` and `imageUrl` are excluded; and list values are rendered joined
by commas. -/
theorem knowledge_graph_formatting (sr : SearchResponse)
    (kg : List (Str × KGValue)) (h : sr.knowledgeGraph = some kg) :
    (∀ item ∈ kgItems kg, ∃ p ∈ kg, p.1 ∉ excludedKeys ∧ item = kgLine p) ∧
    (∀ p ∈ kg, p.1 ∉ excludedKeys → kgLine p ∈ kgItems kg) ∧
    (∀ p ∈ kg, p.1 ∉ excludedKeys →
      kgLine p <:+: knowledge_graph_text sr.knowledgeGraph) ∧
    (∀ k vs, kgLine (k, .list vs) =
      k ++ str ": " ++ List.intercalate (str ", ") vs) := by
  refine ⟨?_, ?_, ?_, fun k vs => rfl⟩
  · intro item hitem
    rcases List.mem_filterMap.mp hitem with ⟨p, hp, heq⟩
    by_cases hin : p.1 ∈ excludedKeys
    · rw [if_pos hin] at heq
      exact absurd heq (by simp)
    · rw [if_neg hin] at heq
      exact ⟨p, hp, hin, (Option.some.inj heq).symm⟩
  · intro p hp hne
    exact List.mem_filterMap.mpr ⟨p, hp, by rw [if_neg hne]⟩
  · intro p hp hne
    have hmem : kgLine p ∈ kgItems kg :=
      List.mem_filterMap.mpr ⟨p, hp, by rw [if_neg hne]⟩
    have hkgne : kg ≠ [] := List.ne_nil_of_mem hp
    have hitems : kgItems kg ≠ [] := List.ne_nil_of_mem hmem
    rw [h]
    simp only [knowledge_graph_text]
    rw [if_neg hkgne, if_neg hitems]
    exact (mem_intercalate_occurs (str "\n") hmem).trans
      ⟨str "Knowledge Graph about " ++ kgAbout kg ++ str ":\n", [],
        by simp [List.append_assoc]⟩

/-- Witness for C8 at a concrete knowledge graph mixing excluded keys,
a text value and a list value. -/
theorem knowledge_graph_formatting_witness :
    sampleKGResponse.knowledgeGraph = some sampleKG ∧
    ((∀ item ∈ kgItems sampleKG,
        ∃ p ∈ sampleKG, p.1 ∉ excludedKeys ∧ item = kgLine p) ∧
      (∀ p ∈ sampleKG, p.1 ∉ excludedKeys → kgLine p ∈ kgItems sampleKG) ∧
      (∀ p ∈ sampleKG, p.1 ∉ excludedKeys →
        kgLine p <:+: knowledge_graph_text sampleKGResponse.knowledgeGraph) ∧
      (∀ k vs, kgLine (k, .list vs) =
        k ++ str ": " ++ List.intercalate (str ", ") vs)) :=
  ⟨rfl, knowledge_graph_formatting sampleKGResponse sampleKG rfl⟩
